import Mathlib

/-!
Shallow embedding of `src/sanic_dantic/basic_definition.py`.

Python dictionaries are modelled as association lists (`AList`) that keep
insertion order: updating an existing key replaces its value in place,
a new key is appended at the end, matching CPython dict semantics (Python
dict keys are unique, so replacing the first binding is exact).
Pydantic models are modelled as functions from a raw mapping to either a
structured validation error or a validated output (explicitly-set field
names plus the exported field dictionary).
-/

namespace SanicDantic

/-- Python values that flow through the pipeline: strings, ints, the lists
of strings produced by multi-valued query/form parameters, and the set
object stored under the `__fields_set__` key. -/
inductive Val where
  | str : String → Val
  | int : Int → Val
  | strList : List String → Val
  | fieldsSet : List String → Val
deriving Repr, DecidableEq

/-- A Python dict with string keys, in insertion order. -/
abbrev AList (α : Type) := List (String × α)

/-- A dict of `Val`s (headers, match_info, model exports, merged results). -/
abbrev Mapping := AList Val

/-- Python `d.get(k)`: the first entry with key `k`, `none` when absent. -/
def dictGet {α : Type} : AList α → String → Option α
  | [], _ => none
  | (k', v) :: rest, k => if k' = k then some v else dictGet rest k

/-- Python `d[k] = v` on a dict: replace in place when the key is present,
append otherwise. -/
def dictInsert {α : Type} : AList α → String → α → AList α
  | [], k, v => [(k, v)]
  | (k', w) :: rest, k, v =>
      if k' = k then (k, v) :: rest else (k', w) :: dictInsert rest k v

/-- Python `d.update(upd)`: insert the entries of `upd` left to right. -/
def dictUpdate {α : Type} (m upd : AList α) : AList α :=
  upd.foldl (fun acc p => dictInsert acc p.1 p.2) m

/-- The value attached to the last occurrence of `k`, if any. -/
def revLookup {α : Type} (m : AList α) (k : String) : Option α :=
  dictGet m.reverse k

/-- Left-biased choice on options. -/
def oor {α : Type} : Option α → Option α → Option α
  | some v, _ => some v
  | none, b => b

/-- One entry of `e.errors()`: the code only reads `loc[0]` (the failing
field's name, stored here as `loc`) and `msg`. -/
structure FieldErr where
  loc : String
  msg : String
deriving Repr, DecidableEq

/-- A pydantic `ValidationError`: `e.errors()` is a non-empty list of field
failures, split here into the first entry (`e.errors()[0]`) and the rest. -/
structure VError where
  first : FieldErr
  rest : List FieldErr
deriving Repr, DecidableEq

/-- Output of a successful pydantic model construction: the explicitly-set
field names (`obj.__fields_set__`) and the exported fields (`obj.dict()`). -/
structure ModelOut where
  fieldsSet : List String
  dict : Mapping
deriving Repr, DecidableEq

/-- A pydantic model class: `construct raw` is `model(**raw)`, failing with a
`VError` on validation failure. `inheritsBaseModel` records whether
`BaseModel in getmro(model)`. -/
structure Model where
  inheritsBaseModel : Bool
  construct : Mapping → Except VError ModelOut

/-- The state of `request.json`: accessing it raises (`err`), yields a
non-dict JSON value (`nondict`), or yields a JSON object (`dict`). -/
inductive JsonBody where
  | err : JsonBody
  | nondict : JsonBody
  | dict : Mapping → JsonBody

/-- Models `request.ctx`, tracking only `ParsedArgsObj`-valued attributes. -/
abbrev CtxMap := AList (List (String × Val))

/-- The parts of a Sanic `Request` the code reads or writes. -/
structure Request where
  headers : Mapping
  match_info : Mapping
  args : AList (List String)
  form : AList (List String)
  json : JsonBody
  ctx : CtxMap

/-- What an arbitrary error handler returns (an opaque Python object). -/
abbrev HandlerResult := Option Val

/-- The `error` argument after the constructor's shape check: `None`, a
boolean, or a callable (an error handler function or an error type — calling
a class constructs an instance). -/
inductive ErrorSlot where
  | none : ErrorSlot
  | bool : Bool → ErrorSlot
  | callable : (Request → VError → HandlerResult) → ErrorSlot

/-- Python truthiness of the `error` slot (callables are truthy). -/
def ErrorSlot.truthy : ErrorSlot → Bool
  | .none => false
  | .bool b => b
  | .callable _ => true

/-- Embeds `error is True`. -/
def ErrorSlot.isTrue : ErrorSlot → Bool
  | .bool true => true
  | _ => false

/-- Embeds `isinstance(error, Callable)`. -/
def ErrorSlot.isCallable : ErrorSlot → Bool
  | .callable _ => true
  | _ => false

/-! ### ParsedArgsObj -/

/-- The class `ParsedArgsObj` is a dict; attribute access goes through
`__getattr__`/`__setattr__` below. -/
abbrev ParsedArgsObj := List (String × Val)

/-- Embeds `__getattr__(self, item): return self.get(item)`. -/
def ParsedArgsObj.getattr (self : ParsedArgsObj) (item : String) : Option Val :=
  dictGet self item

/-- Embeds `__setattr__(self, key, value): self.update(\x7bkey: value\x7d)`. -/
def ParsedArgsObj.setattr (self : ParsedArgsObj) (key : String) (value : Val) :
    ParsedArgsObj :=
  dictUpdate self [(key, value)]

/-- The class attribute `ParsedArgsObj.__fields_set__ = set()`. It is never
rebound on an instance: `self.__fields_set__ = ...` is intercepted by
`__setattr__` and lands in the mapping instead, so every read of
`self.__fields_set__` resolves to this (empty) class attribute. -/
def clsFieldsSet : List String := []

/-- Embeds `__combine_base_model__(self, obj)`: when `obj.__fields_set__` is
non-empty, `self.__fields_set__ = self.__fields_set__.union(obj.__fields_set__)`
(the read sees the class attribute, the write is redirected by
`__setattr__` into the mapping under the key `"__fields_set__"`); then
`self.update(obj.dict())`. -/
def combineBaseModel (self : ParsedArgsObj) (obj : ModelOut) : ParsedArgsObj :=
  dictUpdate
    (if obj.fieldsSet ≠ [] then
      dictInsert self "__fields_set__"
        (Val.fieldsSet (clsFieldsSet.union obj.fieldsSet))
    else self)
    obj.dict

/-! ### DanticModelObj -/

/-- The descriptor's slots after a successful `__init__`. -/
structure DanticModelObj where
  header : Option Model
  query : Option Model
  path : Option Model
  body : Option Model
  form : Option Model
  all : Option Model
  error : ErrorSlot

/-- Message of the `AssertionError` raised when `body and form`. -/
def bodyFormMsg : String :=
  "sanic-dantic: body and form cannot be used at the same time."

/-- Message of the `AssertionError` raised when a model does not inherit
from `pydantic.BaseModel`. -/
def mroMsg : String :=
  "sanic-dantic: model must inherited from Pydantic.BaseModel"

/-- Message of the `AssertionError` raised for a malformed `error` slot. -/
def errShapeMsg : String :=
  "sanic-dantic: the error handler must be a callable function or True"

/-- Result of `DanticModelObj.__init__`: the logged messages, and either the
constructed descriptor or the message of the raised `ServerError` (each
`AssertionError` is caught, logged via `error_logger.error(e)`, and
re-raised as `ServerError(str(e))`). -/
structure InitOutcome where
  logged : List String
  result : Except String DanticModelObj
deriving Inhabited

/-- Embeds `DanticModelObj.__init__`: assign the slots, then run the three checks
in source order (body/form exclusivity, the `getmro` loop over
`[header, path, query, form, body, all]`, the `error` shape check). -/
def DanticModelObj.init (header query path body form all : Option Model)
    (error : ErrorSlot) : InitOutcome :=
  if body.isSome && form.isSome then
    { logged := [bodyFormMsg], result := .error bodyFormMsg }
  else if ([header, path, query, form, body, all].filterMap id).any
      (fun m => !m.inheritsBaseModel) then
    { logged := [mroMsg], result := .error mroMsg }
  else if error.truthy && !error.isTrue && !error.isCallable then
    { logged := [errShapeMsg], result := .error errShapeMsg }
  else
    { logged := [],
      result := .ok
        { header := header, query := query, path := path, body := body,
          form := form, all := all, error := error } }

/-! ### validate -/

/-- An exception escaping the `try` block of `validate`: a pydantic
`ValidationError` or any other exception (whose `str(e)` is kept). -/
inductive PipeErr where
  | v : VError → PipeErr
  | other : String → PipeErr
deriving Repr, DecidableEq

/-- One `if dmo.<slot>:` block of `validate`: construct the model from the
raw mapping and fold it into `parsed_args` via `__combine_base_model__`. -/
def runStage (mOpt : Option Model) (raw : Mapping) (pa : ParsedArgsObj) :
    Except PipeErr ParsedArgsObj :=
  match mOpt with
  | none => .ok pa
  | some m =>
      match m.construct raw with
      | .ok obj => .ok (combineBaseModel pa obj)
      | .error e => .error (.v e)

/-- The dict comprehension collapsing multi-valued parameters:
`val[0] if len(val) == 1 else val`. -/
def collapse1 : List String → Val
  | [v] => Val.str v
  | l => Val.strList l

/-- Embeds the comprehension collapsing each multi-valued entry, `val[0] if len(val) == 1 else val`, over `mv.items()`. -/
def collapseMulti (mv : AList (List String)) : Mapping :=
  mv.map (fun p => (p.1, collapse1 p.2))

/-- Stands for `str(e)` of the `TypeError` raised by `dmo.body(**request.json)` when the
JSON body is not a mapping (exact Python text not modelled). -/
def jsonNotMappingMsg : String := "body is not a mapping"

/-- Stands for `str(e)` of the exception raised by accessing `request.json` on a
missing/unparseable body (exact Python text not modelled). -/
def jsonRaisedMsg : String := "failed when parsing body as json"

/-- The `if dmo.form: ... elif dmo.body: ...` block. -/
def runFormBody (request : Request) (dmo : DanticModelObj)
    (pa : ParsedArgsObj) : Except PipeErr ParsedArgsObj :=
  match dmo.form with
  | some m => runStage (some m) (collapseMulti request.form) pa
  | none =>
      match dmo.body with
      | some m =>
          match request.json with
          | .dict d => runStage (some m) d pa
          | .nondict => .error (.other jsonNotMappingMsg)
          | .err => .error (.other jsonRaisedMsg)
      | none => .ok pa

/-- Embeds `query_params` computed inside the `if dmo.all:` block. -/
def allQueryParams (request : Request) : Mapping :=
  collapseMulti request.args

/-- Embeds `body_params` computed inside the `if dmo.all:` block: `request.json`
when it is a dict, `\x7b\x7d` when it is parseable but not a dict, and the
collapsed form data when accessing `request.json` raises. -/
def allBodyParams (request : Request) : Mapping :=
  match request.json with
  | .dict d => d
  | .nondict => []
  | .err => collapseMulti request.form

/-- Embeds `params` passed to the `all` model: `params = \x7b\x7d`, then
`params.update(query_params)`, `params.update(body_params)`,
`params.update(request.headers)`, `params.update(request.match_info)`. -/
def allRawParams (request : Request) : Mapping :=
  dictUpdate
    (dictUpdate
      (dictUpdate
        (dictUpdate [] (allQueryParams request))
        (allBodyParams request))
      request.headers)
    request.match_info

/-- The `try` block of `validate` (lines 124-180): the five stages in source
order, threading `parsed_args` (initially empty). -/
def runPipeline (request : Request) (dmo : DanticModelObj) :
    Except PipeErr ParsedArgsObj := do
  let pa ← runStage dmo.header request.headers []
  let pa ← runStage dmo.path request.match_info pa
  let pa ← runStage dmo.query (collapseMulti request.args) pa
  let pa ← runFormBody request dmo pa
  runStage dmo.all (allRawParams request) pa

/-- The observable outcome of `validate`: a normal return of the parsed
arguments, a normal return of the error handler's result, or a raised
exception (the original `ValidationError`, an `InvalidUsage`, or a
`ServerError`). -/
inductive VOutcome where
  | ok : ParsedArgsObj → VOutcome
  | handlerReturn : HandlerResult → VOutcome
  | raisedValidation : VError → VOutcome
  | raisedInvalidUsage : String → VOutcome
  | raisedServerError : String → VOutcome
deriving Repr, DecidableEq

/-- Whether the outcome is a normal successful return of `parsed_args`. -/
def VOutcome.isOk : VOutcome → Bool
  | .ok _ => true
  | _ => false

/-- The message carried by a raised framework HTTP error, if any. -/
def raisesMessage : VOutcome → Option String
  | .raisedInvalidUsage m => some m
  | .raisedServerError m => some m
  | _ => none

/-- Embeds the message f-string, first location then message text, for
`error_msg = e.errors()[0]`. -/
def firstFailureMessage (e : VError) : String :=
  e.first.loc ++ " " ++ e.first.msg

/-- The full result of `validate`: outcome, final `request.ctx`, and the
messages sent to `error_logger.error`. -/
structure ValidateOutcome where
  result : VOutcome
  ctx : CtxMap
  logged : List String
deriving Repr, DecidableEq

/-- Embeds `validate(request, dmo)` (lines 111-200): run the pipeline; on success
set `request.ctx.params = parsed_args` and return it. On a
`ValidationError`: re-raise it when `dmo.error == True`; when `dmo.error`
is otherwise truthy (a callable), return `dmo.error(request, e)` (the
first-failure message computed on lines 187-188 is unused on this path);
otherwise log the first-failure message and raise `InvalidUsage` with it.
Any other exception becomes `ServerError(str(e))`. -/
def validate (request : Request) (dmo : DanticModelObj) : ValidateOutcome :=
  match runPipeline request dmo with
  | .ok parsed_args =>
      { result := .ok parsed_args,
        ctx := dictInsert request.ctx "params" parsed_args,
        logged := [] }
  | .error (.v e) =>
      match dmo.error with
      | .bool true =>
          { result := .raisedValidation e, ctx := request.ctx, logged := [] }
      | .callable f =>
          { result := .handlerReturn (f request e), ctx := request.ctx,
            logged := [] }
      | _ =>
          { result := .raisedInvalidUsage (firstFailureMessage e),
            ctx := request.ctx,
            logged := [firstFailureMessage e] }
  | .error (.other s) =>
      { result := .raisedServerError s, ctx := request.ctx, logged := [] }

/-! ### Fixtures for concrete evaluations -/

/-- A one-field validation error: field `x`, message `field required`. -/
def eX : VError := { first := { loc := "x", msg := "field required" }, rest := [] }

/-- A model that accepts any raw mapping, marking every key as
explicitly set and exporting the raw mapping unchanged. -/
def acceptAllModel : Model :=
  { inheritsBaseModel := true,
    construct := fun raw => .ok { fieldsSet := raw.map Prod.fst, dict := raw } }

/-- A model whose construction always fails with `eX`. -/
def failXModel : Model :=
  { inheritsBaseModel := true, construct := fun _ => .error eX }

/-- A model exporting the single field `k = "P"` (no explicitly-set fields). -/
def pathModelK : Model :=
  { inheritsBaseModel := true,
    construct := fun _ => .ok { fieldsSet := [], dict := [("k", Val.str "P")] } }

/-- A model exporting the single field `k = "Q"` (no explicitly-set fields). -/
def queryModelK : Model :=
  { inheritsBaseModel := true,
    construct := fun _ => .ok { fieldsSet := [], dict := [("k", Val.str "Q")] } }

/-- A model exporting `a = 1` with `a` explicitly set. -/
def fieldsSetModel : Model :=
  { inheritsBaseModel := true,
    construct := fun _ =>
      .ok { fieldsSet := ["a"], dict := [("a", Val.int 1)] } }

/-- Stands for an HTTP-error-type reference used as the `error` policy:
calling it (as the code does, with `(request, e)`) constructs an exception
instance, which this handler returns as an opaque value. -/
def errTypeHandler : Request → VError → HandlerResult :=
  fun _ _ => some (Val.str "InvalidUsage instance")

/-- A request with no parameters at all (accessing `request.json` raises). -/
def reqEmpty : Request :=
  { headers := [], match_info := [], args := [], form := [], json := .err,
    ctx := [] }

/-- A request with header `y: H`, query `?y=2` and JSON body `x = 1`: the
claimed `all`-mode precedence would let the query value `"2"` win for `y`. -/
def reqC1 : Request :=
  { headers := [("y", Val.str "H")], match_info := [],
    args := [("y", ["2"])], form := [], json := .dict [("x", Val.int 1)],
    ctx := [] }

/-- A request whose JSON body parses to a non-dict value, with form field
`z=9` present. -/
def reqC4 : Request :=
  { headers := [], match_info := [], args := [], form := [("z", ["9"])],
    json := .nondict, ctx := [] }

/-- A descriptor with only a failing `query` schema and an error-type
reference (a callable) as the `error` policy. -/
def dmoErrType : DanticModelObj :=
  { header := none, query := some failXModel, path := none, body := none,
    form := none, all := none, error := .callable errTypeHandler }

/-- A descriptor with `path` and `query` schemas that both export the key
`k`, and no other slots. -/
def dmoPathQuery : DanticModelObj :=
  { header := none, query := some queryModelK, path := some pathModelK,
    body := none, form := none, all := none, error := .none }

/-- A descriptor with only a failing `query` schema and no error policy. -/
def dmoNoPolicy : DanticModelObj :=
  { header := none, query := some failXModel, path := none, body := none,
    form := none, all := none, error := .none }

/-- A descriptor whose only schema marks a field as explicitly set. -/
def dmoFieldsSet : DanticModelObj :=
  { header := none, query := some fieldsSetModel, path := none, body := none,
    form := none, all := none, error := .none }

/-- A descriptor with no schemas configured at all. -/
def dmoEmptyCfg : DanticModelObj :=
  { header := none, query := none, path := none, body := none,
    form := none, all := none, error := .none }

/-! ### Dictionary lemmas -/

@[simp] theorem oor_some {α : Type} (v : α) (b : Option α) :
    oor (some v) b = some v := rfl

@[simp] theorem oor_none {α : Type} (b : Option α) : oor none b = b := rfl

@[simp] theorem oor_self_none {α : Type} (a : Option α) : oor a none = a := by
  cases a <;> rfl

theorem oor_assoc {α : Type} (a b c : Option α) :
    oor (oor a b) c = oor a (oor b c) := by
  cases a <;> cases b <;> rfl

theorem dictGet_append {α : Type} (m₁ m₂ : AList α) (k : String) :
    dictGet (m₁ ++ m₂) k = oor (dictGet m₁ k) (dictGet m₂ k) := by
  induction m₁ with
  | nil => simp [dictGet]
  | cons p rest ih =>
      cases p with
      | mk k' v =>
          by_cases h : k' = k <;> simp [dictGet, h, ih]

theorem dictGet_dictInsert {α : Type} (m : AList α) (k k' : String) (v : α) :
    dictGet (dictInsert m k v) k' =
      if k' = k then some v else dictGet m k' := by
  induction m with
  | nil =>
      by_cases hk : k' = k
      · subst hk; simp [dictInsert, dictGet]
      · have hk2 : ¬k = k' := fun hh => hk hh.symm
        simp [dictInsert, dictGet, hk, hk2]
  | cons p rest ih =>
      cases p with
      | mk k₀ w =>
          by_cases h₀ : k₀ = k
          · subst h₀
            by_cases hk : k' = k₀
            · subst hk; simp [dictInsert, dictGet]
            · have hk2 : ¬k₀ = k' := fun hh => hk hh.symm
              simp [dictInsert, dictGet, hk, hk2]
          · by_cases hk : k' = k₀
            · subst hk
              have hne : ¬k' = k := fun hh => h₀ hh
              simp [dictInsert, dictGet, h₀, hne]
            · have hk2 : ¬k₀ = k' := fun hh => hk hh.symm
              by_cases hkk : k' = k
              · subst hkk
                simp [dictInsert, dictGet, h₀, hk2, ih]
              · simp [dictInsert, dictGet, h₀, hk2, hkk, ih]

theorem dictGet_dictUpdate {α : Type} (m upd : AList α) (k : String) :
    dictGet (dictUpdate m upd) k = oor (revLookup upd k) (dictGet m k) := by
  induction upd generalizing m with
  | nil => simp [dictUpdate, revLookup, dictGet]
  | cons p rest ih =>
      cases p with
      | mk k₁ v₁ =>
          have hstep : dictUpdate m ((k₁, v₁) :: rest) =
              dictUpdate (dictInsert m k₁ v₁) rest := rfl
          rw [hstep, ih]
          have hrev : revLookup ((k₁, v₁) :: rest) k =
              oor (revLookup rest k)
                (if k₁ = k then some v₁ else none) := by
            simp only [revLookup, List.reverse_cons]
            rw [dictGet_append]
            rfl
          rw [hrev, oor_assoc, dictGet_dictInsert]
          by_cases hk : k = k₁
          · subst hk; simp
          · have hk' : ¬k₁ = k := fun hh => hk hh.symm
            simp [hk, hk']


theorem except_bind_ok {ε α β : Type} (a : Except ε α) (f : α → Except ε β)
    (b : β) (h : a >>= f = Except.ok b) :
    ∃ x, a = Except.ok x ∧ f x = Except.ok b := by
  cases a with
  | ok x => exact ⟨x, rfl, h⟩
  | error e => exact absurd h (by simp [Bind.bind, Except.bind])

theorem runStage_none_ok (raw : Mapping) (pa : ParsedArgsObj) :
    runStage none raw pa = .ok pa := rfl

theorem runStage_ok_elim (m : Model) (raw : Mapping) (pa pa' : ParsedArgsObj)
    (h : runStage (some m) raw pa = .ok pa') :
    ∃ obj, m.construct raw = .ok obj ∧ pa' = combineBaseModel pa obj := by
  simp only [runStage] at h
  cases hc : m.construct raw with
  | ok obj =>
      rw [hc] at h
      exact ⟨obj, rfl, (Except.ok.inj h).symm⟩
  | error e => rw [hc] at h; cases h

theorem runFormBody_none (request : Request) (dmo : DanticModelObj)
    (pa : ParsedArgsObj) (hf : dmo.form = none) (hb : dmo.body = none) :
    runFormBody request dmo pa = .ok pa := by
  simp [runFormBody, hf, hb]

theorem runPipeline_ok_split (request : Request) (dmo : DanticModelObj)
    (pa : ParsedArgsObj) (h : runPipeline request dmo = .ok pa) :
    ∃ pa1 pa2 pa3 pa4,
      runStage dmo.header request.headers [] = .ok pa1 ∧
      runStage dmo.path request.match_info pa1 = .ok pa2 ∧
      runStage dmo.query (collapseMulti request.args) pa2 = .ok pa3 ∧
      runFormBody request dmo pa3 = .ok pa4 ∧
      runStage dmo.all (allRawParams request) pa4 = .ok pa := by
  unfold runPipeline at h
  obtain ⟨pa1, h1, h⟩ := except_bind_ok _ _ _ h
  obtain ⟨pa2, h2, h⟩ := except_bind_ok _ _ _ h
  obtain ⟨pa3, h3, h⟩ := except_bind_ok _ _ _ h
  obtain ⟨pa4, h4, h5⟩ := except_bind_ok _ _ _ h
  exact ⟨pa1, pa2, pa3, pa4, h1, h2, h3, h4, h5⟩

theorem dictGet_combine_of_rev (pa : ParsedArgsObj) (obj : ModelOut)
    (k : String) (v : Val) (h : revLookup obj.dict k = some v) :
    dictGet (combineBaseModel pa obj) k = some v := by
  unfold combineBaseModel
  rw [dictGet_dictUpdate, h]
  rfl

theorem dictGet_combine_fields_set (pa : ParsedArgsObj) (obj : ModelOut)
    (h1 : obj.fieldsSet ≠ [])
    (h2 : revLookup obj.dict "__fields_set__" = none) :
    dictGet (combineBaseModel pa obj) "__fields_set__" =
      some (Val.fieldsSet obj.fieldsSet) := by
  unfold combineBaseModel
  rw [dictGet_dictUpdate, h2, if_pos h1, oor_none, dictGet_dictInsert,
    if_pos rfl]
  rfl

/-! ### Claims -/

/-- C1: the raw-value mapping handed to the `all` schema does not give
body/query values priority over header/path values, contrary to the claim
(and to the function's own docstring `body = form > query > path > header`).
At `reqC1` (header `y: H`, query `?y=2`, JSON body `x = 1`) the merged raw
mapping maps `y` to the header value `"H"`, not the query value `"2"`:
the code updates with the headers and path values last, so they win. -/
theorem all_merge_gives_header_priority :
    allRawParams reqC1 = [("y", Val.str "H"), ("x", Val.int 1)]
    ∧ dictGet (allRawParams reqC1) "y" = some (Val.str "H")
    ∧ dictGet (allRawParams reqC1) "y" ≠ some (Val.str "2") := by
  refine ⟨rfl, rfl, by decide⟩

/-- C2 counterexample: with an error-type reference configured as the
`error` policy (a callable, here `errTypeHandler`) and a validation failure
whose first failing field gives the message `x field required`, `validate`
does not raise anything: it returns `dmo.error(request, e)` to the caller,
and no raised error carries the first-failure message. -/
theorem error_type_policy_not_raised :
    (validate reqEmpty dmoErrType).result =
      VOutcome.handlerReturn (some (Val.str "InvalidUsage instance"))
    ∧ raisesMessage (validate reqEmpty dmoErrType).result ≠
      some "x field required" := by
  refine ⟨rfl, by decide⟩

/-- C2 amended: for every validation failure when the configured `error`
policy is a callable (which is what an HTTP-error-type reference is),
`validate` invokes it with the request and the validation error and returns
its result to the caller; nothing is raised, nothing is logged, and the
first-failure message is not used on this path. -/
theorem callable_error_policy_invoked_and_returned
    (request : Request) (dmo : DanticModelObj)
    (f : Request → VError → HandlerResult) (e : VError)
    (hf : dmo.error = ErrorSlot.callable f)
    (hp : runPipeline request dmo = .error (.v e)) :
    validate request dmo =
      { result := .handlerReturn (f request e), ctx := request.ctx,
        logged := [] } := by
  simp [validate, hp, hf]

/-- Witness for C2 amended at `reqEmpty`/`dmoErrType`. -/
theorem callable_error_policy_invoked_and_returned_w :
    validate reqEmpty dmoErrType =
      { result := .handlerReturn (errTypeHandler reqEmpty eX),
        ctx := reqEmpty.ctx, logged := [] } :=
  callable_error_policy_invoked_and_returned reqEmpty dmoErrType
    errTypeHandler eX rfl rfl

/-- C3: the per-source groups are validated and merged in the fixed order
header, path, query, form-or-body, each later merge overwriting same-named
keys. Stated as: whichever present group comes later and exports a key `k`
determines the merged value of `k` once the groups after it are absent —
in particular (second conjunct) a query-exported key overwrites any
header- or path-derived value for the same key. -/
theorem merge_order_later_source_wins :
    (∀ (request : Request) (dmo : DanticModelObj) (pa : ParsedArgsObj)
        (mf : Model) (objF : ModelOut) (k : String) (v : Val),
        dmo.form = some mf → dmo.all = none →
        runPipeline request dmo = .ok pa →
        mf.construct (collapseMulti request.form) = .ok objF →
        revLookup objF.dict k = some v →
        dictGet pa k = some v)
    ∧ (∀ (request : Request) (dmo : DanticModelObj) (pa : ParsedArgsObj)
        (mq : Model) (objQ : ModelOut) (k : String) (v : Val),
        dmo.query = some mq → dmo.form = none → dmo.body = none →
        dmo.all = none →
        runPipeline request dmo = .ok pa →
        mq.construct (collapseMulti request.args) = .ok objQ →
        revLookup objQ.dict k = some v →
        dictGet pa k = some v)
    ∧ (∀ (request : Request) (dmo : DanticModelObj) (pa : ParsedArgsObj)
        (mb : Model) (objB : ModelOut) (d : Mapping) (k : String) (v : Val),
        dmo.body = some mb → dmo.form = none → dmo.all = none →
        request.json = JsonBody.dict d →
        runPipeline request dmo = .ok pa →
        mb.construct d = .ok objB →
        revLookup objB.dict k = some v →
        dictGet pa k = some v)
    ∧ (∀ (request : Request) (dmo : DanticModelObj) (pa : ParsedArgsObj)
        (mp : Model) (objP : ModelOut) (k : String) (v : Val),
        dmo.path = some mp → dmo.query = none → dmo.form = none →
        dmo.body = none → dmo.all = none →
        runPipeline request dmo = .ok pa →
        mp.construct request.match_info = .ok objP →
        revLookup objP.dict k = some v →
        dictGet pa k = some v) := by
  refine ⟨?_, ?_, ?_, ?_⟩
  · intro request dmo pa mf objF k v hF ha hp hc hr
    obtain ⟨pa1, pa2, pa3, pa4, h1, h2, h3, h4, h5⟩ :=
      runPipeline_ok_split request dmo pa hp
    unfold runFormBody at h4
    simp only [hF] at h4
    obtain ⟨obj, hobj, hpa4⟩ := runStage_ok_elim _ _ _ _ h4
    rw [hc] at hobj
    cases hobj
    rw [ha] at h5
    cases Except.ok.inj h5
    rw [hpa4]
    exact dictGet_combine_of_rev _ _ _ _ hr
  · intro request dmo pa mq objQ k v hq hf hb ha hp hc hr
    obtain ⟨pa1, pa2, pa3, pa4, h1, h2, h3, h4, h5⟩ :=
      runPipeline_ok_split request dmo pa hp
    rw [hq] at h3
    obtain ⟨obj, hobj, hpa3⟩ := runStage_ok_elim _ _ _ _ h3
    rw [hc] at hobj
    cases hobj
    rw [runFormBody_none request dmo pa3 hf hb] at h4
    cases Except.ok.inj h4
    rw [ha] at h5
    cases Except.ok.inj h5
    rw [hpa3]
    exact dictGet_combine_of_rev _ _ _ _ hr
  · intro request dmo pa mb objB d k v hB hf ha hj hp hc hr
    obtain ⟨pa1, pa2, pa3, pa4, h1, h2, h3, h4, h5⟩ :=
      runPipeline_ok_split request dmo pa hp
    unfold runFormBody at h4
    simp only [hf, hB, hj] at h4
    obtain ⟨obj, hobj, hpa4⟩ := runStage_ok_elim _ _ _ _ h4
    rw [hc] at hobj
    cases hobj
    rw [ha] at h5
    cases Except.ok.inj h5
    rw [hpa4]
    exact dictGet_combine_of_rev _ _ _ _ hr
  · intro request dmo pa mp objP k v hP hq hf hb ha hp hc hr
    obtain ⟨pa1, pa2, pa3, pa4, h1, h2, h3, h4, h5⟩ :=
      runPipeline_ok_split request dmo pa hp
    rw [hP] at h2
    obtain ⟨obj, hobj, hpa2⟩ := runStage_ok_elim _ _ _ _ h2
    rw [hc] at hobj
    cases hobj
    rw [hq] at h3
    cases Except.ok.inj h3
    rw [runFormBody_none request dmo pa2 hf hb] at h4
    cases Except.ok.inj h4
    rw [ha] at h5
    cases Except.ok.inj h5
    rw [hpa2]
    exact dictGet_combine_of_rev _ _ _ _ hr

/-- Witness for C3 at `reqEmpty`/`dmoPathQuery`: path exports `k = "P"`,
query exports `k = "Q"`, and the merged result holds the query value. -/
theorem merge_order_later_source_wins_w :
    dictGet ([("k", Val.str "Q")] : ParsedArgsObj) "k" =
      some (Val.str "Q") :=
  merge_order_later_source_wins.2.1 reqEmpty dmoPathQuery
    [("k", Val.str "Q")] queryModelK
    { fieldsSet := [], dict := [("k", Val.str "Q")] } "k" (Val.str "Q")
    rfl rfl rfl rfl rfl rfl rfl

/-- C4 counterexample: at `reqC4` the JSON body is parseable but not a
mapping and the form holds `z=9`; the claim says the collapsed form values
are then used as the body substitute, but the code sets `body_params` to
the empty dict instead. -/
theorem all_body_substitute_nondict_not_form :
    allBodyParams reqC4 = []
    ∧ collapseMulti reqC4.form = [("z", Val.str "9")]
    ∧ allBodyParams reqC4 ≠ collapseMulti reqC4.form := by
  refine ⟨rfl, rfl, by decide⟩

/-- C4 amended: in `all` mode the body substitute is the parsed JSON body
exactly when it is parseable and a mapping; when accessing the body raises
(absent/unparseable) the collapsed form values are used; when the body is
parseable but not a mapping the substitute is the empty mapping. -/
theorem all_body_substitute_cases (request : Request) :
    (∀ d, request.json = JsonBody.dict d → allBodyParams request = d)
    ∧ (request.json = JsonBody.nondict → allBodyParams request = [])
    ∧ (request.json = JsonBody.err →
        allBodyParams request = collapseMulti request.form) := by
  refine ⟨?_, ?_, ?_⟩
  · intro d h; simp [allBodyParams, h]
  · intro h; simp [allBodyParams, h]
  · intro h; simp [allBodyParams, h]

/-- Witness for C4 amended at `reqEmpty` (accessing the body raises). -/
theorem all_body_substitute_cases_w :
    allBodyParams reqEmpty = collapseMulti reqEmpty.form :=
  (all_body_substitute_cases reqEmpty).2.2 rfl

/-- C5: on a validation failure with no `error` policy configured,
`validate` logs the first-failure message (first failing field's name, a
space, its message text) at error severity and raises `InvalidUsage`
carrying that same message. -/
theorem default_policy_logs_and_raises
    (request : Request) (dmo : DanticModelObj) (e : VError)
    (he : dmo.error = ErrorSlot.none)
    (hp : runPipeline request dmo = .error (.v e)) :
    validate request dmo =
      { result := .raisedInvalidUsage (firstFailureMessage e),
        ctx := request.ctx, logged := [firstFailureMessage e] }
    ∧ firstFailureMessage e = e.first.loc ++ " " ++ e.first.msg := by
  refine ⟨?_, rfl⟩
  simp [validate, hp, he]

/-- Witness for C5 at `reqEmpty`/`dmoNoPolicy`. -/
theorem default_policy_logs_and_raises_w :
    validate reqEmpty dmoNoPolicy =
      { result := .raisedInvalidUsage (firstFailureMessage eX),
        ctx := reqEmpty.ctx, logged := [firstFailureMessage eX] }
    ∧ firstFailureMessage eX = eX.first.loc ++ " " ++ eX.first.msg :=
  default_policy_logs_and_raises reqEmpty dmoNoPolicy eX rfl rfl

/-- C6: constructing a descriptor with both `body` and `form` supplied
fails: the configuration error message is logged and the construction
raises a `ServerError` with that message, so no descriptor is produced. -/
theorem body_form_conflict_fails_at_construction
    (header query path body form all : Option Model) (error : ErrorSlot)
    (hb : body.isSome = true) (hf : form.isSome = true) :
    DanticModelObj.init header query path body form all error =
      { logged := [bodyFormMsg], result := .error bodyFormMsg } := by
  simp [DanticModelObj.init, hb, hf]

/-- Witness for C6 with two concrete models in the `body` and `form`
slots. -/
theorem body_form_conflict_fails_at_construction_w :
    DanticModelObj.init none none none (some acceptAllModel)
        (some acceptAllModel) none ErrorSlot.none =
      { logged := [bodyFormMsg], result := .error bodyFormMsg } :=
  body_form_conflict_fails_at_construction none none none
    (some acceptAllModel) (some acceptAllModel) none ErrorSlot.none rfl rfl

/-- C7: when the whole pipeline succeeds with result `pa`, `validate`
stores `pa` on the request context under the fixed key `params` and
returns that same object. -/
theorem success_stores_params_and_returns
    (request : Request) (dmo : DanticModelObj) (pa : ParsedArgsObj)
    (hp : runPipeline request dmo = .ok pa) :
    validate request dmo =
      { result := .ok pa, ctx := dictInsert request.ctx "params" pa,
        logged := [] }
    ∧ dictGet (validate request dmo).ctx "params" = some pa := by
  have h1 : validate request dmo =
      { result := .ok pa, ctx := dictInsert request.ctx "params" pa,
        logged := [] } := by
    simp [validate, hp]
  refine ⟨h1, ?_⟩
  rw [h1]
  simp [dictGet_dictInsert]

/-- Witness for C7 at `reqEmpty`/`dmoEmptyCfg` (empty pipeline succeeds
with an empty result). -/
theorem success_stores_params_and_returns_w :
    validate reqEmpty dmoEmptyCfg =
      { result := .ok [], ctx := dictInsert reqEmpty.ctx "params" [],
        logged := [] }
    ∧ dictGet (validate reqEmpty dmoEmptyCfg).ctx "params" = some [] :=
  success_stores_params_and_returns reqEmpty dmoEmptyCfg [] rfl

/-- C8: on the merged result object, attribute-style access is a pure
alias for key access for both reads (`__getattr__` is `self.get`) and
writes (`__setattr__` is item assignment), and reading a missing
attribute/key yields `none` (Python `None`) rather than failing. -/
theorem attribute_access_aliases_key_access :
    (∀ (pa : ParsedArgsObj) (item : String),
        ParsedArgsObj.getattr pa item = dictGet pa item)
    ∧ (∀ (pa : ParsedArgsObj) (key : String) (value : Val),
        ParsedArgsObj.setattr pa key value = dictInsert pa key value)
    ∧ (∀ (pa : ParsedArgsObj) (item : String),
        dictGet pa item = none → ParsedArgsObj.getattr pa item = none) :=
  ⟨fun _ _ => rfl, fun _ _ _ => rfl, fun _ _ h => h⟩

/-- Witness for C8: reading a missing attribute yields `none`. -/
theorem attribute_access_aliases_key_access_w :
    ParsedArgsObj.getattr [] "missing" = none :=
  attribute_access_aliases_key_access.2.2 [] "missing" rfl

/-- C9: merging a validated model with at least one explicitly-set field
inserts the tracking set under the ordinary key `__fields_set__` (the
class-level set read on the way is empty, so the inserted value is the
model's own set), and consequently a successful `validate` can return a
result containing `__fields_set__` as a key alongside the validated
values. -/
theorem combine_exposes_fields_set_key :
    (∀ (pa : ParsedArgsObj) (obj : ModelOut),
        obj.fieldsSet ≠ [] →
        revLookup obj.dict "__fields_set__" = none →
        dictGet (combineBaseModel pa obj) "__fields_set__" =
          some (Val.fieldsSet obj.fieldsSet))
    ∧ (validate reqEmpty dmoFieldsSet).result =
        VOutcome.ok
          [("__fields_set__", Val.fieldsSet ["a"]), ("a", Val.int 1)] :=
  ⟨dictGet_combine_fields_set, rfl⟩

/-- Witness for C9 at a concrete model output with `a` explicitly set. -/
theorem combine_exposes_fields_set_key_w :
    dictGet
        (combineBaseModel []
          { fieldsSet := ["a"], dict := [("a", Val.int 1)] })
        "__fields_set__" =
      some (Val.fieldsSet ["a"]) :=
  combine_exposes_fields_set_key.1 []
    { fieldsSet := ["a"], dict := [("a", Val.int 1)] } (by decide) (by decide)

/-- C10: on every non-success outcome of `validate` (re-raised validation
error, handler return, default `InvalidUsage`, or `ServerError`), the
request context is left unchanged; `params` is only written on success. -/
theorem failure_leaves_ctx_unchanged
    (request : Request) (dmo : DanticModelObj)
    (h : (validate request dmo).result.isOk = false) :
    (validate request dmo).ctx = request.ctx := by
  unfold validate at h ⊢
  cases hp : runPipeline request dmo with
  | ok pa => rw [hp] at h; simp [VOutcome.isOk] at h
  | error pe =>
      cases pe with
      | v e =>
          cases dmo.error with
          | none => rfl
          | bool b => cases b <;> rfl
          | callable f => rfl
      | other s => rfl

/-- Witness for C10 at `reqEmpty`/`dmoNoPolicy` (a validation failure on
the default policy path). -/
theorem failure_leaves_ctx_unchanged_w :
    (validate reqEmpty dmoNoPolicy).ctx = reqEmpty.ctx :=
  failure_leaves_ctx_unchanged reqEmpty dmoNoPolicy rfl



end SanicDantic
